import Mathlib

/-!
Verification of the e-commerce analytics engine (`src/generate_data.py` and
`src/analysis.py`) against its natural-language specification.

Modelling conventions (shallow embedding):
* a pandas `DataFrame` of transactions is a `List Transaction`; the engine only
  filters, groups, sorts and sums, so lists capture it exactly;
* money amounts are `ℚ` (idealising Python floats); `round(x, 2)` is `round2`;
* calendar dates are day numbers (`ℕ`); `datetime.now()` becomes an explicit
  `now` parameter, and `strftime` day strings compare exactly like day numbers;
* the seeded pseudo-random sources (`numpy.random`, `random`) are modelled as a
  per-row stream of draws; a draw records the values the PRNG produced, and
  `ValidDraw` records the ranges the library calls guarantee;
* Python exceptions are `Except` values.
-/

/-- Embedding of Python `round(x, 2)` on rationals: round to 2 decimal places.
(Half-way cases differ between Python's banker's rounding and `round`; no claim
depends on them.) -/
def round2 (q : ℚ) : ℚ := ((round (q * 100) : ℤ) : ℚ) / 100

/-- A rational is representable with 2 decimal places. All generated
`total_amount` values have this shape. -/
def TwoDecimal (q : ℚ) : Prop := ∃ z : ℤ, q = (z : ℚ) / 100

/-- Helper for first-occurrence deduplication, carrying the keys already seen.
This models pandas `Series.unique` (first-occurrence order) and the key set of
`DataFrame.groupby`; every claim below is insensitive to the key order. -/
def uniqueAux {β : Type} [DecidableEq β] (seen : List β) : List β → List β
  | [] => []
  | k :: ks => if k ∈ seen then uniqueAux seen ks else k :: uniqueAux (k :: seen) ks

/-- Distinct keys of a list, first occurrence first. -/
def uniqueKeys {β : Type} [DecidableEq β] (l : List β) : List β := uniqueAux [] l

/-- Insert into a list sorted by the boolean comparator `r`. -/
def insertOrd {α : Type} (r : α → α → Bool) (a : α) : List α → List α
  | [] => [a]
  | b :: l => if r a b then a :: b :: l else b :: insertOrd r a l

/-- Comparison sort by the boolean comparator `r`; models
`DataFrame.sort_values` (only sortedness and the permutation property matter
to the claims, not the sorting algorithm). -/
def sortOrd {α : Type} (r : α → α → Bool) : List α → List α
  | [] => []
  | a :: l => insertOrd r a (sortOrd r l)

/-- Minimum of a list of day numbers; models `Series.min` on a date column
(`None` on the empty column, where pandas yields NaN). -/
def minList : List ℕ → Option ℕ
  | [] => none
  | a :: l =>
    some (match minList l with
      | none => a
      | some b => min a b)

/-- Category list from `generate_data.py`. -/
def CATEGORIES : List String :=
  ["Électronique", "Vêtements", "Maison & Jardin", "Sports & Loisirs", "Livres"]

/-- Product catalog per category (the `PRODUCTS` dict of `generate_data.py`). -/
def PRODUCTS (category : String) : List String :=
  if category = "Électronique" then
    ["Smartphone", "Laptop", "Tablette", "Écouteurs", "Montre connectée",
      "Enceinte Bluetooth"]
  else if category = "Vêtements" then
    ["T-shirt", "Jean", "Robe", "Veste", "Chaussures", "Sac à main"]
  else if category = "Maison & Jardin" then
    ["Aspirateur", "Cafetière", "Lampe", "Coussin", "Plante", "Bougie"]
  else if category = "Sports & Loisirs" then
    ["Ballon", "Tapis de yoga", "Vélo", "Raquette", "Sac de sport", "Gourde"]
  else if category = "Livres" then
    ["Roman", "BD", "Guide pratique", "Biographie", "Science-fiction", "Cuisine"]
  else []

/-- Region list from `generate_data.py`. -/
def REGIONS : List String :=
  ["Île-de-France", "Auvergne-Rhône-Alpes", "Provence-Alpes-Côte d\x27Azur",
    "Nouvelle-Aquitaine", "Occitanie", "Hauts-de-France", "Bretagne", "Grand Est"]

/-- Payment method list from `generate_data.py`. -/
def PAYMENT_METHODS : List String :=
  ["Carte bancaire", "PayPal", "Virement", "Apple Pay"]

/-- Per-category uniform price range, mirroring the `if`/`elif` chain on
`category` in `generate_ecommerce_data` (the `else` branch is Livres). -/
def priceRange (category : String) : ℚ × ℚ :=
  if category = "Électronique" then (50, 1200)
  else if category = "Vêtements" then (15, 150)
  else if category = "Maison & Jardin" then (10, 300)
  else if category = "Sports & Loisirs" then (10, 500)
  else (5, 50)

/-- Values produced by the pseudo-random sources for one transaction of
`generate_ecommerce_data`, in drawing order. -/
structure Draw where
  expDraw : ℕ
  fallback : ℕ
  catIdx : ℕ
  prodIdx : ℕ
  basePrice : ℚ
  jitter : ℚ
  quantity : ℕ
  custId : ℕ
  regionIdx : ℕ
  payIdx : ℕ
  status : String
deriving DecidableEq

/-- Ranges the library calls guarantee for each draw: `random.choice` picks an
index into the relevant list, `random.uniform(a, b)` lies in `[a, b]`,
`np.random.choice` picks from the given support. -/
def ValidDraw (d : Draw) : Prop :=
  d.catIdx < 5 ∧ d.prodIdx < 6 ∧
  (priceRange (CATEGORIES.getD d.catIdx "Livres")).1 ≤ d.basePrice ∧
  d.basePrice ≤ (priceRange (CATEGORIES.getD d.catIdx "Livres")).2 ∧
  9 / 10 ≤ d.jitter ∧ d.jitter ≤ 11 / 10 ∧
  1 ≤ d.quantity ∧ d.quantity ≤ 5 ∧
  1 ≤ d.custId ∧ d.custId ≤ 1000 ∧
  d.regionIdx < 8 ∧ d.payIdx < 4 ∧
  d.status ∈ ["Complété", "Annulé", "Remboursé"]

instance (d : Draw) : Decidable (ValidDraw d) := by
  unfold ValidDraw
  infer_instance

/-- One row of the transactions table. `transaction_id` is the numeric part of
`TXN_{i+1:06d}`, `customer_id` the numeric part of `CUST_{k:04d}`, and `date`
a day number (the `YYYY-MM-DD` strings of `strftime` compare identically). -/
structure Transaction where
  transaction_id : ℕ
  date : ℕ
  customer_id : ℕ
  category : String
  product : String
  quantity : ℕ
  unit_price : ℚ
  total_amount : ℚ
  region : String
  payment_method : String
  status : String
deriving DecidableEq

/-- Body of the generation loop of `generate_ecommerce_data` for index `i`:
two-stage date offset, category/product pick, category-based price with ±10%
jitter, quantity, and the status-conditional zeroing of `total_amount`. -/
def mkRow (now i : ℕ) (d : Draw) : Transaction :=
  let days_offset := if 730 < d.expDraw then d.fallback else d.expDraw
  let transaction_date := now - 730 + days_offset
  let category := CATEGORIES.getD d.catIdx "Livres"
  let product := (PRODUCTS category).getD d.prodIdx "Roman"
  let price := round2 (d.basePrice * d.jitter)
  let total := round2 (price * (d.quantity : ℚ))
  { transaction_id := i + 1,
    date := transaction_date,
    customer_id := d.custId,
    category := category,
    product := product,
    quantity := d.quantity,
    unit_price := price,
    total_amount := if d.status = "Complété" then total else 0,
    region := REGIONS.getD d.regionIdx "Bretagne",
    payment_method := PAYMENT_METHODS.getD d.payIdx "PayPal",
    status := d.status }

/-- Errors `generate_ecommerce_data` can raise. The code performs no argument
validation, so `invalidArgument` is never produced; `keyErrorDate` is the
`KeyError` pandas raises from `sort_values` when the frame built from an empty
row list has no `date` column. -/
inductive GenError where
  | invalidArgument
  | keyErrorDate
deriving DecidableEq

/-- Embedding of `generate_ecommerce_data(n_transactions)`: `now` is the day
number of `datetime.now()` (the start date is `now - 730`), `draws i` the
pseudo-random values consumed by loop iteration `i`. Python's `range(n)` is
empty for `n ≤ 0`, and sorting the resulting columnless empty frame by
`date` raises `KeyError`. -/
def generate_ecommerce_data (now : ℕ) (n : ℤ) (draws : ℕ → Draw) :
    Except GenError (List Transaction) :=
  let data := (List.range n.toNat).map fun i => mkRow now i (draws i)
  if data = [] then .error .keyErrorDate
  else .ok (sortOrd (fun a b => decide (a.date ≤ b.date)) data)

/-- One row of the customers table derived by `generate_customer_data`. -/
structure Customer where
  customer_id : ℕ
  first_purchase_date : ℕ
  total_purchases : ℕ
  total_spent : ℚ
  segment : String
deriving DecidableEq

/-- Embedding of `generate_customer_data(transactions_df)`: one row per
distinct `customer_id` (pandas `unique`, first occurrence first), minimum
date, full transaction count, Completed-only spend (the segment is computed
from the unrounded sum, the stored value is rounded, as in the source). -/
def generate_customer_data (transactions_df : List Transaction) : List Customer :=
  let customers := uniqueKeys (transactions_df.map fun r => r.customer_id)
  customers.map fun c =>
    let mine := transactions_df.filter fun r => decide (r.customer_id = c)
    let first_purchase := (minList (mine.map fun r => r.date)).getD 0
    let total_spent : ℚ := ((transactions_df.filter fun r =>
        decide (r.customer_id = c) && decide (r.status = "Complété")).map
          fun r => r.total_amount).sum
    let segment := if 2000 < total_spent then "Premium"
      else if 500 < total_spent then "Régulier"
      else "Occasionnel"
    { customer_id := c,
      first_purchase_date := first_purchase,
      total_purchases := mine.length,
      total_spent := round2 total_spent,
      segment := segment }

/-- Modelled from the spec: the seeded pseudo-random sources (`numpy.random`
and `random`, Mersenne Twister engines seeded by `np.random.seed(42)` and
`random.seed(42)`, living outside `src/`) are modelled as a deterministic
stream of values computed from the seed, here by a linear congruential mix.
Only the fact that the stream is a function of the seed matters below. -/
def rnd (seed i k : ℕ) : ℕ :=
  (1103515245 * (seed + 31 * i + 1009 * k) + 12345) % 2147483648

/-- Modelled from the spec: the draw stream of one generation run under a
given seed; component `i` collects the values the PRNGs hand to loop
iteration `i`, each reduced to the range the corresponding library call
guarantees. -/
def drawsOf (seed : ℕ) (i : ℕ) : Draw :=
  let cat := CATEGORIES.getD (rnd seed i 2 % 5) "Livres"
  { expDraw := rnd seed i 0 % 1000,
    fallback := rnd seed i 1 % 731,
    catIdx := rnd seed i 2 % 5,
    prodIdx := rnd seed i 3 % 6,
    basePrice := (priceRange cat).1 + ((rnd seed i 4 % 40 : ℕ) : ℚ),
    jitter := 9 / 10 + ((rnd seed i 5 % 21 : ℕ) : ℚ) / 100,
    quantity := 1 + rnd seed i 6 % 5,
    custId := 1 + rnd seed i 7 % 1000,
    regionIdx := rnd seed i 8 % 8,
    payIdx := rnd seed i 9 % 4,
    status := if rnd seed i 10 % 100 < 95 then "Complété"
      else if rnd seed i 10 % 100 < 98 then "Annulé"
      else "Remboursé" }

/-- Full data generation run as in `generate_data.py`'s main block:
transactions then the customer table derived from them, all randomness drawn
from the stream determined by `seed`, with `now` the current day number. -/
def generate_pipeline (seed : ℕ) (n : ℤ) (now : ℕ) :
    Except GenError (List Transaction × List Customer) :=
  match generate_ecommerce_data now n (drawsOf seed) with
  | .error e => .error e
  | .ok tx => .ok (tx, generate_customer_data tx)

/-- Error raised by `calculate_kpis`: Python's `ZeroDivisionError` from the
`len(completed) / len(df)` conversion-rate line. -/
inductive AnalysisError where
  | divisionByZero
deriving DecidableEq

/-- KPI record of `calculate_kpis`. `avg_order_value` is `none` when there is
no Completed row (pandas `mean` of an empty column is NaN, not an error). -/
structure Kpis where
  total_revenue : ℚ
  total_transactions : ℕ
  avg_order_value : Option ℚ
  total_customers : ℕ
  total_products_sold : ℕ
  conversion_rate : ℚ
deriving DecidableEq

/-- The `df[df['status'] == 'Complété']` filter shared by all aggregations. -/
def completedOf (df : List Transaction) : List Transaction :=
  df.filter fun r => decide (r.status = "Complété")

/-- Embedding of `calculate_kpis(df)`. The dict is computed first without
error (sums of empty columns are 0, `mean` of an empty column is NaN,
modelled `none`); the final `(len(completed) / len(df)) * 100` raises
`ZeroDivisionError` exactly when `df` is empty. -/
def calculate_kpis (df : List Transaction) : Except AnalysisError Kpis :=
  let completed := completedOf df
  if df.length = 0 then .error .divisionByZero
  else .ok
    { total_revenue := (completed.map fun r => r.total_amount).sum,
      total_transactions := completed.length,
      avg_order_value := if completed.length = 0 then none
        else some ((completed.map fun r => r.total_amount).sum
          / (completed.length : ℚ)),
      total_customers := (uniqueKeys (df.map fun r => r.customer_id)).length,
      total_products_sold := (completed.map fun r => r.quantity).sum,
      conversion_rate := ((completed.length : ℚ) / (df.length : ℚ)) * 100 }

/-- Row of the `sales_by_category` result. -/
structure CategoryRow where
  category : String
  revenue : ℚ
  transactions : ℕ
  units_sold : ℕ
deriving DecidableEq

/-- Embedding of `sales_by_category(df)`: group Completed rows by category
(sum of `total_amount`, count, sum of `quantity`), then sort by revenue
descending. -/
def sales_by_category (df : List Transaction) : List CategoryRow :=
  let completed := completedOf df
  let keys := uniqueKeys (completed.map fun r => r.category)
  let rows := keys.map fun k =>
    let g := completed.filter fun r => decide (r.category = k)
    { category := k,
      revenue := (g.map fun r => r.total_amount).sum,
      transactions := g.length,
      units_sold := (g.map fun r => r.quantity).sum : CategoryRow }
  sortOrd (fun a b => decide (b.revenue ≤ a.revenue)) rows

/-- Row of the `sales_by_region` result. -/
structure RegionRow where
  region : String
  revenue : ℚ
  transactions : ℕ
deriving DecidableEq

/-- Embedding of `sales_by_region(df)`: group Completed rows by region, sort
by revenue descending. -/
def sales_by_region (df : List Transaction) : List RegionRow :=
  let completed := completedOf df
  let keys := uniqueKeys (completed.map fun r => r.region)
  let rows := keys.map fun k =>
    let g := completed.filter fun r => decide (r.region = k)
    { region := k,
      revenue := (g.map fun r => r.total_amount).sum,
      transactions := g.length : RegionRow }
  sortOrd (fun a b => decide (b.revenue ≤ a.revenue)) rows

/-- Row of the `top_products` result. -/
structure ProductRow where
  product : String
  category : String
  revenue : ℚ
  units_sold : ℕ
  orders : ℕ
deriving DecidableEq

/-- Embedding of `top_products(df, n)`: group Completed rows by the
`(product, category)` pair, sort by revenue descending, keep the first `n`
(`DataFrame.head(n)`). -/
def top_products (df : List Transaction) (n : ℕ) : List ProductRow :=
  let completed := completedOf df
  let keys := uniqueKeys (completed.map fun r => (r.product, r.category))
  let rows := keys.map fun k =>
    let g := completed.filter fun r => decide ((r.product, r.category) = k)
    { product := k.1,
      category := k.2,
      revenue := (g.map fun r => r.total_amount).sum,
      units_sold := (g.map fun r => r.quantity).sum,
      orders := g.length : ProductRow }
  (sortOrd (fun a b => decide (b.revenue ≤ a.revenue)) rows).take n

/-- Row of the `payment_method_analysis` result. -/
structure PaymentRow where
  payment_method : String
  revenue : ℚ
  transactions : ℕ
  percentage : ℚ
deriving DecidableEq

/-- Embedding of `payment_method_analysis(df)`: group Completed rows by
payment method, then add the `percentage` column (group count over the sum of
the group counts, times 100; the `percentage := 0` placeholder mirrors the
frame before the column assignment and is overwritten for every row), then
sort by revenue descending. -/
def payment_method_analysis (df : List Transaction) : List PaymentRow :=
  let completed := completedOf df
  let keys := uniqueKeys (completed.map fun r => r.payment_method)
  let stats := keys.map fun k =>
    let g := completed.filter fun r => decide (r.payment_method = k)
    { payment_method := k,
      revenue := (g.map fun r => r.total_amount).sum,
      transactions := g.length,
      percentage := 0 : PaymentRow }
  let total := (stats.map fun s => s.transactions).sum
  let withPct := stats.map fun s =>
    { s with percentage := ((s.transactions : ℚ) / (total : ℚ)) * 100 }
  sortOrd (fun a b => decide (b.revenue ≤ a.revenue)) withPct

/-- Draw used by witnesses: category Électronique, base price 50, jitter 1,
quantity 1, Completed. -/
def d0 : Draw :=
  { expDraw := 0, fallback := 0, catIdx := 0, prodIdx := 0, basePrice := 50,
    jitter := 1, quantity := 1, custId := 1, regionIdx := 0, payIdx := 0,
    status := "Complété" }

/-- Transaction `mkRow 730 0 d0` evaluates to; used by witnesses. -/
def r0 : Transaction :=
  { transaction_id := 1, date := 0, customer_id := 1, category := "Électronique",
    product := "Smartphone", quantity := 1, unit_price := 50, total_amount := 50,
    region := "Île-de-France", payment_method := "Carte bancaire",
    status := "Complété" }

/-- Completed sample transaction (amount 20), used by witnesses. -/
def txDone : Transaction :=
  { transaction_id := 2, date := 1, customer_id := 8, category := "Livres",
    product := "Roman", quantity := 2, unit_price := 10, total_amount := 20,
    region := "Bretagne", payment_method := "PayPal", status := "Complété" }

/-- Completed sample transaction (amount 500, other product), used by
witnesses. -/
def txDone2 : Transaction :=
  { transaction_id := 3, date := 2, customer_id := 8, category := "Électronique",
    product := "Laptop", quantity := 1, unit_price := 500, total_amount := 500,
    region := "Occitanie", payment_method := "Carte bancaire",
    status := "Complété" }

/-- Cancelled sample transaction (amount 0), used by witnesses. -/
def txCancel : Transaction :=
  { transaction_id := 4, date := 0, customer_id := 7, category := "Livres",
    product := "BD", quantity := 1, unit_price := 10, total_amount := 0,
    region := "Bretagne", payment_method := "PayPal", status := "Annulé" }

/-- Completed sample transaction with amount exactly 2000, used by witnesses. -/
def tx2000 : Transaction :=
  { transaction_id := 5, date := 3, customer_id := 9, category := "Électronique",
    product := "Laptop", quantity := 1, unit_price := 2000, total_amount := 2000,
    region := "Occitanie", payment_method := "Carte bancaire",
    status := "Complété" }

/-- Customer row `generate_customer_data [tx2000]` produces, used by
witnesses: spend exactly 2000 lands in segment Régulier. -/
def cust2000 : Customer :=
  { customer_id := 9, first_purchase_date := 3, total_purchases := 1,
    total_spent := 2000, segment := "Régulier" }

/-- KPI record of `calculate_kpis [txDone]`, used by witnesses. -/
def kpisDone : Kpis :=
  { total_revenue := 20, total_transactions := 1, avg_order_value := some 20,
    total_customers := 1, total_products_sold := 2, conversion_rate := 100 }

instance exceptDecEq {ε α : Type} [DecidableEq ε] [DecidableEq α] :
    DecidableEq (Except ε α) := fun a b =>
  match a, b with
  | .error e1, .error e2 =>
    if h : e1 = e2 then isTrue (congrArg _ h)
    else isFalse fun hc => h (Except.error.inj hc)
  | .error _, .ok _ => isFalse fun hc => Except.noConfusion hc
  | .ok _, .error _ => isFalse fun hc => Except.noConfusion hc
  | .ok v1, .ok v2 =>
    if h : v1 = v2 then isTrue (congrArg _ h)
    else isFalse fun hc => h (Except.ok.inj hc)

theorem mem_uniqueAux {β : Type} [DecidableEq β] (l : List β) :
    ∀ (seen : List β) (x : β), x ∈ uniqueAux seen l ↔ x ∈ l ∧ x ∉ seen := by
  induction l with
  | nil => intro seen x; simp [uniqueAux]
  | cons k ks ih =>
    intro seen x
    by_cases hk : k ∈ seen
    · rw [uniqueAux, if_pos hk, ih]
      constructor
      · rintro ⟨hx, hxs⟩
        exact ⟨List.mem_cons_of_mem _ hx, hxs⟩
      · rintro ⟨hx, hxs⟩
        rcases List.mem_cons.mp hx with h | h
        · exact absurd (h ▸ hk) hxs
        · exact ⟨h, hxs⟩
    · rw [uniqueAux, if_neg hk]
      constructor
      · intro hx
        rcases List.mem_cons.mp hx with h | h
        · exact ⟨h ▸ List.mem_cons_self _ _, h ▸ hk⟩
        · rcases (ih _ _).mp h with ⟨h1, h2⟩
          exact ⟨List.mem_cons_of_mem _ h1,
            fun hs => h2 (List.mem_cons_of_mem _ hs)⟩
      · rintro ⟨hx, hxs⟩
        rcases List.mem_cons.mp hx with h | h
        · exact h ▸ List.mem_cons_self _ _
        · by_cases hxk : x = k
          · exact hxk ▸ List.mem_cons_self _ _
          · exact List.mem_cons_of_mem _
              ((ih _ _).mpr ⟨h, by simp [hxk, hxs]⟩)

theorem mem_uniqueKeys {β : Type} [DecidableEq β] (l : List β) (x : β) :
    x ∈ uniqueKeys l ↔ x ∈ l := by
  rw [uniqueKeys, mem_uniqueAux]; simp

theorem nodup_uniqueAux {β : Type} [DecidableEq β] (l : List β) :
    ∀ seen : List β, (uniqueAux seen l).Nodup := by
  induction l with
  | nil => intro seen; simp [uniqueAux]
  | cons k ks ih =>
    intro seen
    by_cases hk : k ∈ seen
    · rw [uniqueAux, if_pos hk]; exact ih seen
    · rw [uniqueAux, if_neg hk]
      refine List.Nodup.cons ?_ (ih (k :: seen))
      intro hmem
      exact ((mem_uniqueAux ks (k :: seen) k).mp hmem).2 (List.mem_cons_self _ _)

theorem nodup_uniqueKeys {β : Type} [DecidableEq β] (l : List β) :
    (uniqueKeys l).Nodup := nodup_uniqueAux l []

theorem perm_insertOrd {α : Type} (r : α → α → Bool) (a : α) (l : List α) :
    (insertOrd r a l).Perm (a :: l) := by
  induction l with
  | nil => exact List.Perm.refl _
  | cons b l ih =>
    rw [insertOrd]
    by_cases h : r a b
    · rw [if_pos h]
    · rw [if_neg h]
      exact (ih.cons b).trans (List.Perm.swap a b l)

theorem perm_sortOrd {α : Type} (r : α → α → Bool) (l : List α) :
    (sortOrd r l).Perm l := by
  induction l with
  | nil => exact List.Perm.refl _
  | cons a l ih =>
    exact (perm_insertOrd r a (sortOrd r l)).trans (ih.cons a)

theorem mem_insertOrd {α : Type} (r : α → α → Bool) (a x : α) (l : List α) :
    x ∈ insertOrd r a l ↔ x = a ∨ x ∈ l := by
  rw [(perm_insertOrd r a l).mem_iff, List.mem_cons]

theorem pairwise_insertOrd {α : Type} (r : α → α → Bool)
    (htot : ∀ a b, r a b = true ∨ r b a = true)
    (htr : ∀ a b c, r a b = true → r b c = true → r a c = true)
    (a : α) (l : List α) (h : l.Pairwise fun x y => r x y = true) :
    (insertOrd r a l).Pairwise fun x y => r x y = true := by
  induction l with
  | nil => simp [insertOrd]
  | cons b l ih =>
    rw [insertOrd]
    rcases List.pairwise_cons.mp h with ⟨hb, hl⟩
    by_cases hr : r a b
    · rw [if_pos hr]
      refine List.pairwise_cons.mpr ⟨?_, h⟩
      intro x hx
      rcases List.mem_cons.mp hx with hxb | hxl
      · exact hxb ▸ hr
      · exact htr a b x hr (hb x hxl)
    · rw [if_neg hr]
      refine List.pairwise_cons.mpr ⟨?_, ih hl⟩
      intro x hx
      rcases (mem_insertOrd r a x l).mp hx with hxa | hxl
      · rcases htot a b with hab | hba
        · exact absurd hab hr
        · exact hxa ▸ hba
      · exact hb x hxl

theorem pairwise_sortOrd {α : Type} (r : α → α → Bool)
    (htot : ∀ a b, r a b = true ∨ r b a = true)
    (htr : ∀ a b c, r a b = true → r b c = true → r a c = true)
    (l : List α) : (sortOrd r l).Pairwise fun x y => r x y = true := by
  induction l with
  | nil => simp [sortOrd]
  | cons a l ih => exact pairwise_insertOrd r htot htr a (sortOrd r l) ih

theorem minList_spec (l : List ℕ) (hl : l ≠ []) :
    ∃ m, minList l = some m ∧ m ∈ l ∧ ∀ x ∈ l, m ≤ x := by
  induction l with
  | nil => exact absurd rfl hl
  | cons a l ih =>
    cases l with
    | nil =>
      exact ⟨a, rfl, List.mem_singleton_self a, by simp⟩
    | cons b l' =>
      rcases ih (by simp) with ⟨m, hm, hmem, hmin⟩
      refine ⟨min a m, by rw [minList, hm], ?_, ?_⟩
      · rcases le_total a m with h | h
        · rw [min_eq_left h]; exact List.mem_cons_self _ _
        · rw [min_eq_right h]; exact List.mem_cons_of_mem _ hmem
      · intro x hx
        rcases List.mem_cons.mp hx with hxa | hxl
        · exact hxa ▸ min_le_left a m
        · exact le_trans (min_le_right a m) (hmin x hxl)

theorem sum_filter_key {α β M : Type} [DecidableEq β] [AddCommMonoid M]
    (key : α → β) (f : α → M) :
    ∀ (ks : List β) (rows : List α), ks.Nodup → (∀ r ∈ rows, key r ∈ ks) →
      (ks.map fun k => ((rows.filter fun r => decide (key r = k)).map f).sum).sum
        = (rows.map f).sum := by
  intro ks
  induction ks with
  | nil =>
    intro rows _ hcov
    have hrows : rows = [] :=
      List.eq_nil_iff_forall_not_mem.mpr fun r hr =>
        List.not_mem_nil _ (hcov r hr)
    subst hrows; rfl
  | cons k ks ih =>
    intro rows hnd hcov
    have hperm := List.filter_append_perm (fun r => decide (key r = k)) rows
    have hsplit : (rows.map f).sum
        = ((rows.filter fun r => decide (key r = k)).map f).sum
          + ((rows.filter fun r => !decide (key r = k)).map f).sum := by
      rw [← (hperm.map f).sum_eq, List.map_append, List.sum_append]
    have hknotin : k ∉ ks := (List.nodup_cons.mp hnd).1
    have htail : ∀ k2 ∈ ks,
        (rows.filter fun r => decide (key r = k2))
          = ((rows.filter fun r => !decide (key r = k)).filter
              fun r => decide (key r = k2)) := by
      intro k2 hk2
      rw [List.filter_filter]
      refine (List.filter_congr ?_).symm
      intro r _
      by_cases hr : key r = k2
      · have hne : ¬k2 = k := fun h => hknotin (h ▸ hk2)
        simp [hr, hne]
      · simp [hr]
    have hcov2 : ∀ r ∈ (rows.filter fun r => !decide (key r = k)), key r ∈ ks := by
      intro r hr
      rcases List.mem_filter.mp hr with ⟨hrm, hrk⟩
      have hne : ¬key r = k := by
        intro h; rw [h] at hrk; simp at hrk
      rcases List.mem_cons.mp (hcov r hrm) with h | h
      · exact absurd h hne
      · exact h
    have hmapeq : (ks.map fun k2 =>
          ((rows.filter fun r => decide (key r = k2)).map f).sum)
        = ks.map fun k2 =>
          (((rows.filter fun r => !decide (key r = k)).filter
              fun r => decide (key r = k2)).map f).sum := by
      refine List.map_congr_left ?_
      intro k2 hk2
      rw [htail k2 hk2]
    rw [List.map_cons, List.sum_cons, hsplit, hmapeq,
      ih _ (List.nodup_cons.mp hnd).2 hcov2]

theorem sum_groups {α β M : Type} [DecidableEq β] [AddCommMonoid M]
    (key : α → β) (f : α → M) (rows : List α) :
    ((uniqueKeys (rows.map key)).map
        fun k => ((rows.filter fun r => decide (key r = k)).map f).sum).sum
      = (rows.map f).sum :=
  sum_filter_key key f _ rows (nodup_uniqueKeys _)
    fun r hr => (mem_uniqueKeys _ _).mpr (List.mem_map_of_mem key hr)

theorem sum_map_one {α : Type} (l : List α) :
    (l.map fun _ => (1 : ℕ)).sum = l.length := by
  induction l with
  | nil => rfl
  | cons a l ih => simp [ih, Nat.add_comm]

theorem length_groups {α β : Type} [DecidableEq β]
    (key : α → β) (rows : List α) :
    ((uniqueKeys (rows.map key)).map
        fun k => (rows.filter fun r => decide (key r = k)).length).sum
      = rows.length := by
  have h1 : ((uniqueKeys (rows.map key)).map
        fun k => (rows.filter fun r => decide (key r = k)).length)
      = (uniqueKeys (rows.map key)).map
        fun k => (((rows.filter fun r => decide (key r = k))).map
          fun _ => (1 : ℕ)).sum := by
    refine List.map_congr_left ?_
    intro k _
    rw [sum_map_one]
  rw [h1, sum_groups key (fun _ => (1 : ℕ)) rows, sum_map_one]

theorem round2_gt (q : ℚ) : q - 1 / 200 < round2 q := by
  have h := Int.sub_one_lt_floor (q * 100 + 1 / 2)
  rw [round2, round_eq]
  linarith

theorem round2_intCast_div (z : ℤ) : round2 ((z : ℚ) / 100) = (z : ℚ) / 100 := by
  rw [round2]
  have h : (z : ℚ) / 100 * 100 = (z : ℚ) := by
    rw [div_mul_cancel₀]
    norm_num
  rw [h, round_intCast]

theorem twoDecimal_sum (l : List ℚ) (h : ∀ q ∈ l, TwoDecimal q) :
    TwoDecimal l.sum := by
  induction l with
  | nil => exact ⟨0, by norm_num⟩
  | cons a l ih =>
    rcases h a (List.mem_cons_self _ _) with ⟨z1, hz1⟩
    rcases ih (fun q hq => h q (List.mem_cons_of_mem _ hq)) with ⟨z2, hz2⟩
    refine ⟨z1 + z2, ?_⟩
    rw [List.sum_cons, hz1, hz2]
    push_cast
    ring

theorem round2_fix (q : ℚ) (h : TwoDecimal q) : round2 q = q := by
  rcases h with ⟨z, rfl⟩
  exact round2_intCast_div z

theorem pairwise_sortOrd_key {α : Type} (key : α → ℚ) (l : List α) :
    (sortOrd (fun a b => decide (key b ≤ key a)) l).Pairwise
      fun x y => key y ≤ key x := by
  have h := pairwise_sortOrd (fun a b => decide (key b ≤ key a))
    (fun a b => by
      rcases le_total (key b) (key a) with h | h
      · exact Or.inl (decide_eq_true h)
      · exact Or.inr (decide_eq_true h))
    (fun a b c hab hbc =>
      decide_eq_true (le_trans (of_decide_eq_true hbc) (of_decide_eq_true hab)))
    l
  exact h.imp fun hxy => of_decide_eq_true hxy

theorem sum_cast_div_mul (l : List ℕ) (t : ℚ) :
    (l.map fun x : ℕ => ((x : ℚ) / t) * 100).sum = ((l.sum : ℚ) / t) * 100 := by
  induction l with
  | nil => simp
  | cons a l ih =>
    rw [List.map_cons, List.sum_cons, List.sum_cons, Nat.cast_add, add_div,
      add_mul, ih]

/-- C7: on the empty transaction collection, `calculate_kpis` signals a
DivisionByZero error condition when computing `conversion_rate`
(`len(completed) / len(df)` with `len(df) = 0` raises `ZeroDivisionError` in
Python), rather than silently returning 0 or an unguarded NaN. -/
theorem kpis_empty_division_by_zero :
    calculate_kpis [] = Except.error AnalysisError.divisionByZero := rfl

/-- C8 counterexample: at the concrete input `n = 0`, `generate_ecommerce_data`
does not fail with an InvalidArgument condition (it raises the `KeyError`
from sorting the columnless empty frame instead), refuting the claim as
stated. -/
theorem generate_nonpositive_not_invalid_argument :
    generate_ecommerce_data 730 0 (drawsOf 0)
      ≠ Except.error GenError.invalidArgument := by
  decide

/-- C8 amended: for every integer `n ≤ 0`, `generate_ecommerce_data(n)` fails
— with the `KeyError` pandas raises when sorting the empty, columnless frame
by `date` — rather than returning an empty or garbage dataset. -/
theorem generate_nonpositive_fails (now : ℕ) (n : ℤ) (draws : ℕ → Draw)
    (hn : n ≤ 0) :
    generate_ecommerce_data now n draws = Except.error GenError.keyErrorDate := by
  have h0 : n.toNat = 0 := Int.toNat_of_nonpos hn
  simp [generate_ecommerce_data, h0]

/-- C8 witness: the amended theorem applied at `now = 730`, `n = 0`. -/
theorem generate_nonpositive_fails_witness :
    generate_ecommerce_data 730 0 (drawsOf 0)
      = Except.error GenError.keyErrorDate :=
  generate_nonpositive_fails 730 0 (drawsOf 0) (by decide)

/-- C9 counterexample: with the same seed and the same `n`, two generation
runs on different current dates (`datetime.now()` differing by one day)
produce different tables — the `date` column shifts with the start date
`now - 730` — refuting byte-identical reproducibility from seed and `n`
alone. -/
theorem pipeline_differs_across_days :
    generate_pipeline 0 1 730 ≠ generate_pipeline 0 1 731 := by
  decide

/-- C9 amended: two runs of data generation with the same seed, the same `n`
and the same current date produce identical Transaction and Customer tables
(all randomness is a function of the seed, so the pipeline output is
determined by `seed`, `n` and the run date). -/
theorem pipeline_deterministic (seed : ℕ) (n : ℤ) (now : ℕ)
    (out1 out2 : Except GenError (List Transaction × List Customer))
    (h1 : out1 = generate_pipeline seed n now)
    (h2 : out2 = generate_pipeline seed n now) : out1 = out2 :=
  h1.trans h2.symm

/-- C9 witness: the amended theorem applied to two runs at seed 0, `n = 1`,
day 730. -/
theorem pipeline_deterministic_witness :
    generate_pipeline 0 1 730 = generate_pipeline 0 1 730 :=
  pipeline_deterministic 0 1 730 _ _ rfl rfl

/-- C10: on a transaction collection with no Completed row (including the
empty one), `sales_by_category`, `sales_by_region` and
`payment_method_analysis` each return an empty table and signal no error
(each function is total in the embedding, as the pandas pipeline raises
nothing on an empty filtered frame). -/
theorem grouping_empty_without_completed (df : List Transaction)
    (h : ∀ r ∈ df, r.status ≠ "Complété") :
    sales_by_category df = [] ∧ sales_by_region df = [] ∧
      payment_method_analysis df = [] := by
  have hc : completedOf df = [] :=
    List.filter_eq_nil_iff.mpr fun r hr => by simp [h r hr]
  refine ⟨?_, ?_, ?_⟩ <;>
    simp [sales_by_category, sales_by_region, payment_method_analysis, hc,
      uniqueKeys, uniqueAux, sortOrd]

/-- C10 witness: the theorem applied to the one-row collection whose only
status is Annulé. -/
theorem grouping_empty_without_completed_witness :
    sales_by_category [txCancel] = [] ∧ sales_by_region [txCancel] = [] ∧
      payment_method_analysis [txCancel] = [] :=
  grouping_empty_without_completed [txCancel] (by decide)

theorem priceRange_lower (c : String) : (5 : ℚ) ≤ (priceRange c).1 := by
  unfold priceRange
  split_ifs <;> norm_num

theorem mkRow_amount (now i : ℕ) (d : Draw) (hv : ValidDraw d) :
    ((mkRow now i d).total_amount = 0 ↔ (mkRow now i d).status ≠ "Complété") ∧
    ((mkRow now i d).status = "Complété" → 0 < (mkRow now i d).total_amount) := by
  obtain ⟨-, -, hplo, -, hjlo, -, hqlo, -, -, -, -, -, -⟩ := hv
  have hb5 : (5 : ℚ) ≤ d.basePrice := le_trans (priceRange_lower _) hplo
  have hbj : (9 : ℚ) / 2 ≤ d.basePrice * d.jitter := by nlinarith
  have hp4 : (4 : ℚ) < round2 (d.basePrice * d.jitter) := by
    have h := round2_gt (d.basePrice * d.jitter)
    linarith
  have hq1 : (1 : ℚ) ≤ (d.quantity : ℚ) := by exact_mod_cast hqlo
  have hpq : (4 : ℚ) < round2 (d.basePrice * d.jitter) * (d.quantity : ℚ) := by
    nlinarith
  have htot : 0 < round2 (round2 (d.basePrice * d.jitter) * (d.quantity : ℚ)) := by
    have h := round2_gt (round2 (d.basePrice * d.jitter) * (d.quantity : ℚ))
    linarith
  have hshape : (mkRow now i d).total_amount
      = if d.status = "Complété"
        then round2 (round2 (d.basePrice * d.jitter) * (d.quantity : ℚ))
        else 0 := rfl
  have hstat : (mkRow now i d).status = d.status := rfl
  by_cases hst : d.status = "Complété"
  · have hval : (mkRow now i d).total_amount
        = round2 (round2 (d.basePrice * d.jitter) * (d.quantity : ℚ)) := by
      rw [hshape, if_pos hst]
    refine ⟨⟨fun h0 => ?_, fun hne => ?_⟩, fun _ => ?_⟩
    · rw [hval] at h0
      exact absurd h0 (ne_of_gt htot)
    · rw [hstat] at hne
      exact absurd hst hne
    · rw [hval]
      exact htot
  · have hval : (mkRow now i d).total_amount = 0 := by
      rw [hshape, if_neg hst]
    refine ⟨⟨fun _ => ?_, fun _ => hval⟩, fun hc => ?_⟩
    · rw [hstat]
      exact hst
    · rw [hstat] at hc
      exact absurd hc hst

/-- C1: for every row of a successful `generate_ecommerce_data` run whose
draws respect the library guarantees, `total_amount = 0` iff the status is
not Complété; in particular every Completed row has strictly positive
`total_amount` (unit price comes from a positive range with jitter at least
0.9 and quantity at least 1). -/
theorem generated_zero_iff_not_completed (now : ℕ) (n : ℤ) (draws : ℕ → Draw)
    (rows : List Transaction) (r : Transaction)
    (hvalid : ∀ i, ValidDraw (draws i))
    (hok : generate_ecommerce_data now n draws = Except.ok rows)
    (hr : r ∈ rows) :
    (r.total_amount = 0 ↔ r.status ≠ "Complété") ∧
    (r.status = "Complété" → 0 < r.total_amount) := by
  simp only [generate_ecommerce_data] at hok
  by_cases hdata : ((List.range n.toNat).map fun i => mkRow now i (draws i)) = []
  · rw [if_pos hdata] at hok
    exact Except.noConfusion hok
  · rw [if_neg hdata] at hok
    have hrows := Except.ok.inj hok
    have hmem : r ∈ (List.range n.toNat).map fun i => mkRow now i (draws i) :=
      (perm_sortOrd _ _).mem_iff.mp (hrows ▸ hr)
    rcases List.mem_map.mp hmem with ⟨i, -, hmk⟩
    rw [← hmk]
    exact mkRow_amount now i (draws i) (hvalid i)

theorem round2_int (z : ℤ) : round2 ((z : ℚ)) = z := by
  have h : ((z : ℚ)) = ((100 * z : ℤ) : ℚ) / 100 := by
    push_cast
    field_simp
  rw [h, round2_intCast_div]

theorem round2_nat (n : ℕ) : round2 ((n : ℚ)) = n := by
  have h : ((n : ℚ)) = (((n : ℤ) : ℚ)) := by push_cast; rfl
  rw [h, round2_int]

theorem valid_d0 : ValidDraw d0 := by
  unfold ValidDraw d0
  norm_num [CATEGORIES, priceRange]

theorem mkRow_d0 : mkRow 730 0 d0 = r0 := by
  have h50 : round2 ((50 : ℚ)) = 50 := by
    have h := round2_nat 50
    norm_num at h
    exact h
  simp [mkRow, d0, r0, CATEGORIES, PRODUCTS, REGIONS, PAYMENT_METHODS, h50,
    Transaction.mk.injEq]

theorem gen_d0 : generate_ecommerce_data 730 1 (fun _ => d0) = Except.ok [r0] := by
  have h1 : List.range 1 = [0] := rfl
  simp [generate_ecommerce_data, h1, mkRow_d0, sortOrd, insertOrd]

/-- C1 witness: the theorem applied to the single-row run at `now = 730`,
`n = 1` with the concrete valid draw `d0`; the produced row is `r0`. -/
theorem generated_zero_iff_not_completed_witness :
    (r0.total_amount = 0 ↔ r0.status ≠ "Complété") ∧
    (r0.status = "Complété" → 0 < r0.total_amount) :=
  generated_zero_iff_not_completed 730 1 (fun _ => d0) [r0] r0
    (fun _ => valid_d0) gen_d0 (List.mem_singleton_self r0)

/-- C3: `generate_customer_data` returns exactly one row per distinct
`customer_id` of the input; for each customer the first purchase date is the
minimum date over all of that customer's transactions regardless of status
(attained by one of them), `total_purchases` counts all of that customer's
transactions regardless of status, and `total_spent` is the sum of
`total_amount` over that customer's Completed transactions only, rounded to
2 decimals. -/
theorem generate_customer_data_spec (df : List Transaction) :
    ((generate_customer_data df).map fun c => c.customer_id).Nodup ∧
    (∀ x : ℕ, (x ∈ (generate_customer_data df).map fun c => c.customer_id) ↔
      x ∈ df.map fun r => r.customer_id) ∧
    ∀ c ∈ generate_customer_data df,
      (∃ r ∈ df, r.customer_id = c.customer_id ∧ r.date = c.first_purchase_date) ∧
      (∀ r ∈ df, r.customer_id = c.customer_id → c.first_purchase_date ≤ r.date) ∧
      c.total_purchases = df.countP (fun r => decide (r.customer_id = c.customer_id)) ∧
      c.total_spent = round2 ((((df.filter fun r => decide (r.customer_id = c.customer_id)).filter
        fun r => decide (r.status = "Complété")).map fun r => r.total_amount).sum) := by
  have hmap : ((generate_customer_data df).map fun c => c.customer_id)
      = uniqueKeys (df.map fun r => r.customer_id) := by
    rw [generate_customer_data, List.map_map]
    exact List.map_id _
  refine ⟨?_, ?_, ?_⟩
  · rw [hmap]
    exact nodup_uniqueKeys _
  · intro x
    rw [hmap]
    exact mem_uniqueKeys _ x
  · intro c hc
    rw [generate_customer_data] at hc
    rcases List.mem_map.mp hc with ⟨cid, hcidmem, hceq⟩
    have hcid : c.customer_id = cid := by rw [← hceq]
    have hcid_mem : cid ∈ df.map fun r => r.customer_id :=
      (mem_uniqueKeys _ _).mp hcidmem
    rcases List.mem_map.mp hcid_mem with ⟨rw0, hrw0, hrw0id⟩
    have hmine_ne : (df.filter fun r => decide (r.customer_id = cid)) ≠ [] := by
      intro h0
      have h1 := List.filter_eq_nil_iff.mp h0 rw0 hrw0
      simp [hrw0id] at h1
    have hdates_ne :
        ((df.filter fun r => decide (r.customer_id = cid)).map fun r => r.date)
          ≠ [] := by
      intro h0
      exact hmine_ne (List.map_eq_nil_iff.mp h0)
    rcases minList_spec _ hdates_ne with ⟨m, hm, hmmem, hmmin⟩
    have hfp : c.first_purchase_date = m := by
      rw [← hceq]
      show (minList
        ((df.filter fun r => decide (r.customer_id = cid)).map fun r => r.date)).getD 0 = m
      rw [hm]
      rfl
    refine ⟨?_, ?_, ?_, ?_⟩
    · rcases List.mem_map.mp hmmem with ⟨rm, hrm_mine, hrm_date⟩
      refine ⟨rm, (List.mem_filter.mp hrm_mine).1, ?_, ?_⟩
      · have h1 := (List.mem_filter.mp hrm_mine).2
        rw [hcid]
        simpa using h1
      · rw [hrm_date, hfp]
    · intro r hrdf hrid
      rw [hcid] at hrid
      have hr_mine : r ∈ df.filter fun r => decide (r.customer_id = cid) :=
        List.mem_filter.mpr ⟨hrdf, by simp [hrid]⟩
      rw [hfp]
      exact hmmin _ (List.mem_map_of_mem _ hr_mine)
    · rw [← hceq]
      show (df.filter fun r => decide (r.customer_id = cid)).length
        = df.countP fun r => decide (r.customer_id = cid)
      exact (List.countP_eq_length_filter _ _).symm
    · rw [← hceq]
      show round2 (((df.filter fun r =>
          decide (r.customer_id = cid) && decide (r.status = "Complété")).map
            fun r => r.total_amount).sum)
        = round2 ((((df.filter fun r =>
            decide (r.customer_id = cid)).filter
              fun r => decide (r.status = "Complété")).map fun r => r.total_amount).sum)
      rw [List.filter_filter]
      have hcomm : (df.filter fun r =>
            decide (r.customer_id = cid) && decide (r.status = "Complété"))
          = df.filter fun r =>
            decide (r.status = "Complété") && decide (r.customer_id = cid) :=
        List.filter_congr fun r _ => Bool.and_comm _ _
      rw [hcomm]

/-- C3 witness: the theorem applied at the one-transaction collection
`[txDone]`. -/
theorem generate_customer_data_spec_witness :
    ((generate_customer_data [txDone]).map fun c => c.customer_id).Nodup ∧
    (∀ x : ℕ, (x ∈ (generate_customer_data [txDone]).map fun c => c.customer_id) ↔
      x ∈ [txDone].map fun r => r.customer_id) ∧
    ∀ c ∈ generate_customer_data [txDone],
      (∃ r ∈ [txDone], r.customer_id = c.customer_id ∧ r.date = c.first_purchase_date) ∧
      (∀ r ∈ [txDone], r.customer_id = c.customer_id → c.first_purchase_date ≤ r.date) ∧
      c.total_purchases = [txDone].countP (fun r => decide (r.customer_id = c.customer_id)) ∧
      c.total_spent = round2 (((([txDone].filter fun r => decide (r.customer_id = c.customer_id)).filter
        fun r => decide (r.status = "Complété")).map fun r => r.total_amount).sum) :=
  generate_customer_data_spec [txDone]

/-- C4: for every customer produced by `generate_customer_data` from
transactions whose amounts have 2 decimal places (as all generated amounts
do), the segment is Premium exactly when `total_spent > 2000`, Régulier
exactly when `500 < total_spent ≤ 2000`, and Occasionnel otherwise: the
boundaries are strict greater-than, so spends of exactly 2000 or exactly 500
fall to the lower tier. -/
theorem segment_thresholds (df : List Transaction) (c : Customer)
    (hq : ∀ r ∈ df, TwoDecimal r.total_amount)
    (hc : c ∈ generate_customer_data df) :
    (c.segment = "Premium" ↔ 2000 < c.total_spent) ∧
    (c.segment = "Régulier" ↔ 500 < c.total_spent ∧ c.total_spent ≤ 2000) ∧
    (c.segment = "Occasionnel" ↔ c.total_spent ≤ 500) := by
  rw [generate_customer_data] at hc
  rcases List.mem_map.mp hc with ⟨cid, -, hceq⟩
  subst hceq
  set S : ℚ := ((df.filter fun r =>
      decide (r.customer_id = cid) && decide (r.status = "Complété")).map
        fun r => r.total_amount).sum with hSdef
  have h2d : TwoDecimal S := by
    refine twoDecimal_sum _ ?_
    intro q hqmem
    rcases List.mem_map.mp hqmem with ⟨r, hrmem, hrq⟩
    exact hrq ▸ hq r (List.mem_filter.mp hrmem).1
  show ((if 2000 < S then "Premium"
      else if 500 < S then "Régulier" else "Occasionnel") = "Premium"
        ↔ 2000 < round2 S) ∧
    ((if 2000 < S then "Premium"
      else if 500 < S then "Régulier" else "Occasionnel") = "Régulier"
        ↔ 500 < round2 S ∧ round2 S ≤ 2000) ∧
    ((if 2000 < S then "Premium"
      else if 500 < S then "Régulier" else "Occasionnel") = "Occasionnel"
        ↔ round2 S ≤ 500)
  rw [round2_fix S h2d]
  split_ifs with h1 h2
  · have hn2 : ¬S ≤ 2000 := not_le.mpr h1
    have h500 : (500 : ℚ) < S := lt_trans (by norm_num) h1
    have hn5 : ¬S ≤ 500 := not_le.mpr h500
    refine ⟨?_, ?_, ?_⟩ <;> simp [h1, hn2, hn5]
  · have hle : S ≤ 2000 := not_lt.mp h1
    have hn5 : ¬S ≤ 500 := not_le.mpr h2
    refine ⟨?_, ?_, ?_⟩ <;> simp [h1, h2, hle, hn5]
  · have hle5 : S ≤ 500 := not_lt.mp h2
    refine ⟨?_, ?_, ?_⟩ <;> simp [h1, h2, hle5]

/-- Evaluation of `generate_customer_data [tx2000]`, used by the C4 witness:
a spend of exactly 2000 is classified Régulier. -/
theorem gen_cust_2000 : generate_customer_data [tx2000] = [cust2000] := by
  have h2000 : round2 ((2000 : ℚ)) = 2000 := by
    have h := round2_nat 2000
    norm_num at h
    exact h
  norm_num [generate_customer_data, uniqueKeys, uniqueAux, minList, tx2000,
    cust2000, h2000, Customer.mk.injEq]

/-- C4 witness: the theorem applied to `[tx2000]` and the customer it
produces, whose spend is exactly 2000 and whose segment is Régulier. -/
theorem segment_thresholds_witness :
    (cust2000.segment = "Premium" ↔ 2000 < cust2000.total_spent) ∧
    (cust2000.segment = "Régulier" ↔
      500 < cust2000.total_spent ∧ cust2000.total_spent ≤ 2000) ∧
    (cust2000.segment = "Occasionnel" ↔ cust2000.total_spent ≤ 500) :=
  segment_thresholds [tx2000] cust2000
    (fun r hr => by
      rw [List.mem_singleton.mp hr]
      exact ⟨200000, by norm_num [tx2000]⟩)
    (by rw [gen_cust_2000]; exact List.mem_singleton_self _)

theorem sales_by_category_revenue_sum (df : List Transaction) :
    ((sales_by_category df).map fun row => row.revenue).sum
      = ((completedOf df).map fun r => r.total_amount).sum := by
  simp only [sales_by_category]
  rw [(List.Perm.map _ (perm_sortOrd _ _)).sum_eq, List.map_map]
  exact sum_groups (fun r => r.category) (fun r => r.total_amount) (completedOf df)

theorem sales_by_category_count_sum (df : List Transaction) :
    ((sales_by_category df).map fun row => row.transactions).sum
      = (completedOf df).length := by
  simp only [sales_by_category]
  rw [(List.Perm.map _ (perm_sortOrd _ _)).sum_eq, List.map_map]
  exact length_groups (fun r => r.category) (completedOf df)

/-- C2: whenever `calculate_kpis` succeeds, the revenue column of
`sales_by_category` sums to `total_revenue` and its transactions column sums
to `total_transactions` (grouping by category partitions the Completed rows,
so group sums reconcile with the global KPIs). -/
theorem kpis_reconcile_categories (df : List Transaction) (k : Kpis)
    (hok : calculate_kpis df = Except.ok k) :
    ((sales_by_category df).map fun row => row.revenue).sum = k.total_revenue ∧
    ((sales_by_category df).map fun row => row.transactions).sum
      = k.total_transactions := by
  simp only [calculate_kpis] at hok
  by_cases hdf : df.length = 0
  · rw [if_pos hdf] at hok
    exact Except.noConfusion hok
  · rw [if_neg hdf] at hok
    have hk := Except.ok.inj hok
    subst hk
    exact ⟨sales_by_category_revenue_sum df, sales_by_category_count_sum df⟩

theorem kpis_txDone : calculate_kpis [txDone] = Except.ok kpisDone := by
  norm_num [calculate_kpis, completedOf, kpisDone, txDone, uniqueKeys,
    uniqueAux, Kpis.mk.injEq]

/-- C2 witness: the theorem applied at the one-Completed-row collection
`[txDone]` and its KPI record. -/
theorem kpis_reconcile_categories_witness :
    ((sales_by_category [txDone]).map fun row => row.revenue).sum
      = kpisDone.total_revenue ∧
    ((sales_by_category [txDone]).map fun row => row.transactions).sum
      = kpisDone.total_transactions :=
  kpis_reconcile_categories [txDone] kpisDone kpis_txDone

theorem sum_map_pct {β : Type} (f : β → ℕ) (ks : List β)
    (h0 : (((ks.map f).sum : ℕ) : ℚ) ≠ 0) :
    (ks.map fun s => ((f s : ℚ) / (((ks.map f).sum : ℕ) : ℚ)) * 100).sum
      = 100 := by
  have h1 : (ks.map fun s => ((f s : ℚ) / (((ks.map f).sum : ℕ) : ℚ)) * 100)
      = (ks.map f).map fun x : ℕ => ((x : ℚ) / (((ks.map f).sum : ℕ) : ℚ)) * 100 := by
    rw [List.map_map]
    exact List.map_congr_left fun s _ => rfl
  rw [h1, sum_cast_div_mul, div_self h0, one_mul]

theorem sum_map_sortOrd {α : Type} (r : α → α → Bool) (f : α → ℚ) (l : List α) :
    ((sortOrd r l).map f).sum = (l.map f).sum :=
  ((perm_sortOrd r l).map f).sum_eq

set_option maxHeartbeats 1000000 in
theorem payment_pct_total (df : List Transaction)
    (h0 : (completedOf df).length ≠ 0) :
    ((payment_method_analysis df).map fun s => s.percentage).sum = 100 := by
  have hlen : ((uniqueKeys ((completedOf df).map fun r => r.payment_method)).map
      fun k => ((completedOf df).filter fun r => decide (r.payment_method = k)).length).sum
      = (completedOf df).length := length_groups _ _
  have h0q : ((((uniqueKeys ((completedOf df).map fun r => r.payment_method)).map
      fun k => ((completedOf df).filter fun r =>
        decide (r.payment_method = k)).length).sum : ℕ) : ℚ) ≠ 0 := by
    rw [hlen]
    exact_mod_cast h0
  simp only [payment_method_analysis, List.map_map]
  rw [sum_map_sortOrd, List.map_map]
  exact sum_map_pct
    (fun k => ((completedOf df).filter fun r => decide (r.payment_method = k)).length)
    (uniqueKeys ((completedOf df).map fun r => r.payment_method)) h0q

/-- C6: when the collection has at least one Completed row, the percentage
column of `payment_method_analysis` sums to 100 within the rounding epsilon
0.01 (in exact rational arithmetic the sum is exactly 100, since the group
counts partition the Completed rows). -/
theorem payment_percentages_within_epsilon (df : List Transaction)
    (r1 : Transaction) (hmem : r1 ∈ df) (hst : r1.status = "Complété") :
    |((payment_method_analysis df).map fun s => s.percentage).sum - 100|
      ≤ 1 / 100 := by
  have hr1c : r1 ∈ completedOf df :=
    List.mem_filter.mpr ⟨hmem, by simp [hst]⟩
  have h0 : (completedOf df).length ≠ 0 := by
    intro h
    rw [List.length_eq_zero] at h
    rw [h] at hr1c
    exact List.not_mem_nil _ hr1c
  rw [payment_pct_total df h0]
  norm_num

/-- C6 witness: the theorem applied at `[txDone]`, whose only row is
Completed. -/
theorem payment_percentages_within_epsilon_witness :
    |((payment_method_analysis [txDone]).map fun s => s.percentage).sum - 100|
      ≤ 1 / 100 :=
  payment_percentages_within_epsilon [txDone] txDone
    (List.mem_singleton_self _) rfl

/-- C5: for every transaction collection and every positive `n`,
`top_products` returns at most `n` rows, each row is the aggregate of one
`(product, category)` group of the Completed rows, and the revenue column is
non-increasing from first row to last. -/
theorem top_products_spec (df : List Transaction) (n : ℕ) (hn : 0 < n) :
    (top_products df n).length ≤ n ∧
    (top_products df n).Pairwise (fun a b => b.revenue ≤ a.revenue) ∧
    ∀ row ∈ top_products df n,
      (row.product, row.category)
        ∈ (completedOf df).map (fun r => (r.product, r.category)) ∧
      row.revenue = (((completedOf df).filter fun r =>
        decide ((r.product, r.category) = (row.product, row.category))).map
          fun r => r.total_amount).sum := by
  refine ⟨?_, ?_, ?_⟩
  · simp only [top_products]
    exact List.length_take_le n _
  · simp only [top_products]
    exact (pairwise_sortOrd_key (fun row : ProductRow => row.revenue) _).sublist
      (List.take_sublist _ _)
  · intro row hrow
    simp only [top_products] at hrow
    have h1 := (List.take_sublist _ _).subset hrow
    have h2 := (perm_sortOrd _ _).mem_iff.mp h1
    rcases List.mem_map.mp h2 with ⟨k, hk, hkeq⟩
    have hkmem : k ∈ (completedOf df).map fun r => (r.product, r.category) :=
      (mem_uniqueKeys _ _).mp hk
    constructor
    · rw [← hkeq]
      exact hkmem
    · rw [← hkeq]

/-- C5 witness: the theorem applied at `n = 1` over a two-product collection;
only the higher-revenue product survives the truncation. -/
theorem top_products_spec_witness :
    (top_products [txDone, txDone2] 1).length ≤ 1 ∧
    (top_products [txDone, txDone2] 1).Pairwise
      (fun a b => b.revenue ≤ a.revenue) ∧
    ∀ row ∈ top_products [txDone, txDone2] 1,
      (row.product, row.category)
        ∈ (completedOf [txDone, txDone2]).map (fun r => (r.product, r.category)) ∧
      row.revenue = (((completedOf [txDone, txDone2]).filter fun r =>
        decide ((r.product, r.category) = (row.product, row.category))).map
          fun r => r.total_amount).sum :=
  top_products_spec [txDone, txDone2] 1 (by norm_num)
